import Mathlib

/-!
Shallow embedding of the chatnificent repository (src/chatnificent) in Lean 4,
together with theorems settling the frozen claims about its specification.

The embedding translates the Python sources:
  models.py                   -- ChatMessage / Conversation (pydantic models)
  persistence_managers.py     -- InMemoryPersistenceManager
  conversation_managers.py    -- InMemoryConversationManager
  tools.py / action_handlers.py -- NoTool / NoActionHandler
  callbacks.py                -- send_message callback
  __init__.py                 -- Chatnificent.handle_interaction, _validate_layout
plus, clearly marked, one component modelled from the spec because its code is
absent from the source tree (the Conversation Engine's agentic loop, which only
its integration tests reference).

Python semantics conventions used throughout:
  * `str` values are Lean `String`s; ints are `Nat`s.
  * Python dicts (insertion ordered, unique keys) are association lists,
    with `dictSet` implementing `d[k] = v` (replace-in-place or append) and
    `dictGet` implementing `d.get(k)`.
  * Functions that can raise return `Except String _`; a `.error e` value is a
    raised exception whose description is `e`.
  * Methods that may mutate their object's state are state transformers,
    returning the new state next to their result.
-/

namespace Chatnificent

/-! ## Python dictionary primitives -/

/-- Python dict lookup `d.get(k)` on an insertion-ordered association list. -/
def dictGet {κ α : Type} [DecidableEq κ] : List (κ × α) → κ → Option α
  | [], _ => none
  | (k', v) :: rest, k => if k' = k then some v else dictGet rest k

/-- Python dict assignment `d[k] = v`: replaces the binding in place when the
key is present, appends it otherwise (insertion order preserved). -/
def dictSet {κ α : Type} [DecidableEq κ] : List (κ × α) → κ → α → List (κ × α)
  | [], k, v => [(k, v)]
  | (k', v') :: rest, k, v =>
    if k' = k then (k, v) :: rest else (k', v') :: dictSet rest k v

/-- Python `list(d.keys())`. -/
def dictKeys {κ α : Type} (d : List (κ × α)) : List κ := d.map (·.1)

/-! ## Python string helpers -/

/-- Python `s.strip(chars)`: drop characters satisfying `p` from both ends. -/
def pyStripBy (p : Char → Bool) (s : String) : String :=
  ⟨((s.data.dropWhile p).reverse.dropWhile p).reverse⟩

/-- Python `s.strip()` (whitespace strip). -/
def pyStrip (s : String) : String := pyStripBy Char.isWhitespace s

/-- Python `s.strip("/")`. -/
def pyStripSlash (s : String) : String := pyStripBy (fun c => c == '/') s

/-- Python `s.split(sep)` on the character list; the result is never empty
(`"".split("/") == [""]`). -/
def pySplitCharList (sep : Char) : List Char → List (List Char)
  | [] => [[]]
  | c :: rest =>
    match pySplitCharList sep rest with
    | [] => [[]]
    | h :: t => if c == sep then [] :: h :: t else (c :: h) :: t

/-- Python `s.split("/")`. -/
def pySplitSlash (s : String) : List String :=
  (pySplitCharList '/' s.data).map (fun l => ⟨l⟩)

/-- Python `s[:n]` on a string. -/
def pyTake (s : String) (n : Nat) : String := ⟨s.data.take n⟩

/-- Python `len(s)` on a string. -/
def pyLen (s : String) : Nat := s.data.length

/-- Decimal digit character, for modelling Python `str()` on naturals. -/
def digitChar (d : Nat) : Char :=
  if d = 0 then '0' else if d = 1 then '1' else if d = 2 then '2'
  else if d = 3 then '3' else if d = 4 then '4' else if d = 5 then '5'
  else if d = 6 then '6' else if d = 7 then '7' else if d = 8 then '8'
  else if d = 9 then '9' else '?'

/-- Little-endian decimal digit characters of `n`, with structural fuel so the
definition reduces inside the kernel. -/
def pyStrAux : Nat → Nat → List Char
  | _, 0 => []
  | 0, _ + 1 => []
  | fuel + 1, n + 1 => digitChar ((n + 1) % 10) :: pyStrAux fuel ((n + 1) / 10)

/-- Python `str()` on a natural number. -/
def pyStr (n : Nat) : String :=
  if n = 0 then "0" else ⟨(pyStrAux n n).reverse⟩

/-! ## Data model (models.py)

`Role = Literal["user", "assistant", "system", "tool"]` is a closed enumeration.
`ChatMessage` carries `role : Role` and `content : str`; the generated fields
`id` (a fresh uuid4) and `timestamp` (the construction time) are omitted from
the embedding, no claim depends on them.  `Conversation` carries `id : str`,
`messages : List[ChatMessage]` and `metadata : Dict[str, Any]` (embedded with
string values). -/

inductive Role where
  | user
  | assistant
  | system
  | tool
deriving DecidableEq

structure ChatMessage where
  role : Role
  content : String
deriving DecidableEq

structure Conversation where
  id : String
  messages : List ChatMessage
  metadata : List (String × String) := []
deriving DecidableEq

/-- Pydantic coercion of a raw role string into the closed `Role` enumeration;
any other value fails validation. -/
def parseRole (s : String) : Option Role :=
  if s = "user" then some .user
  else if s = "assistant" then some .assistant
  else if s = "system" then some .system
  else if s = "tool" then some .tool
  else none

/-- Pydantic construction `ChatMessage(role=..., content=...)` as validated by
the source's model (`models.py` lines 23-29): `role : Role` must parse into the
closed enumeration and `content : str` is a required, non-Optional string, so a
`None` content fails validation.  The raw inputs are the role string and an
optional content (`none` standing for Python `None`); the result is `none`
exactly when pydantic raises a `ValidationError`. -/
def chatMessageNew (role : String) (content : Option String) : Option ChatMessage :=
  match parseRole role, content with
  | some r, some c => some ⟨r, c⟩
  | _, _ => none

/-! ## Persistence store (persistence_managers.py, InMemoryPersistenceManager)

The internal state `self._store : Dict[str, Conversation]` is a single
association list keyed by conversation id.  Each method is translated from its
source body; methods are state transformers even when the source body never
mutates, so that absence of side effects is a theorem about the translation
rather than a typing accident. -/

namespace InMemoryPersistenceManager

/-- The `self._store` dictionary of `InMemoryPersistenceManager`. -/
abbrev PMStore : Type := List (String × Conversation)

/-- Source: `return self._store.get(convo_id)` — the `user_id` parameter is
ignored. -/
def load_conversation (st : PMStore) (user_id convo_id : String) : Option Conversation :=
  dictGet st convo_id

/-- Source: `self._store[conversation.id] = conversation.copy(deep=True)` —
the stored entry is a deep copy (a value snapshot) of the argument; the
`user_id` parameter is ignored. -/
def save_conversation (st : PMStore) (user_id : String) (c : Conversation) : PMStore :=
  dictSet st c.id c

/-- Source: `return list(self._store.keys())` — the `user_id` parameter is
ignored. -/
def list_conversations (st : PMStore) (user_id : String) : List String :=
  dictKeys st

/-- Source: `return str(len(self._store) + 1)`; the body performs no mutation,
so the state comes back unchanged. -/
def get_next_conversation_id (st : PMStore) (user_id : String) : String × PMStore :=
  (pyStr (st.length + 1), st)

end InMemoryPersistenceManager

/-! ## Conversation manager (conversation_managers.py, InMemoryConversationManager)

`self._conversations : Dict[str, List[Dict[str, str]]]` maps a user id to a
list of `{"id": ..., "title": ...}` entries. -/

/-- One `{"id": ..., "title": ...}` dictionary. -/
structure ConvoEntry where
  id : String
  title : String
deriving DecidableEq

namespace InMemoryConversationManager

/-- The `self._conversations` dictionary of `InMemoryConversationManager`. -/
abbrev CMStore : Type := List (String × List ConvoEntry)

/-- Source: `return self._conversations.get(user_id, [])`. -/
def list_conversations (st : CMStore) (user_id : String) : List ConvoEntry :=
  (dictGet st user_id).getD []

/-- Source translation, line by line: ensure the user's entry exists
(`self._conversations[user_id] = []` when absent), compute
`next_id = len(self._conversations[user_id]) + 1`, build the placeholder
`{"id": str(next_id), "title": f"Chat {next_id}"}`, append it unless an entry
with that id is already present, and return `str(next_id)`.  The mutated
dictionary is returned next to the result. -/
def get_next_conversation_id (st : CMStore) (user_id : String) : String × CMStore :=
  let st1 : CMStore :=
    match dictGet st user_id with
    | some _ => st
    | none => dictSet st user_id []
  let entries := (dictGet st1 user_id).getD []
  let next_id := entries.length + 1
  let new_convo : ConvoEntry := ⟨pyStr next_id, "Chat " ++ pyStr next_id⟩
  let st2 : CMStore :=
    if entries.any (fun c => c.id = pyStr next_id) then st1
    else dictSet st1 user_id (entries ++ [new_convo])
  (pyStr next_id, st2)

end InMemoryConversationManager

/-! ## Tools (tools.py NoTool, action_handlers.py NoActionHandler)

The spec's `ToolResult` record; the source's `NoTool.execute_tool` and
`NoActionHandler.execute_tool` are annotated `-> str` but their bodies are
`pass`, i.e. they return Python `None`.  The return value is therefore embedded
as an `Option ToolResult` (`none` = Python `None`: no result object at all). -/

structure ToolResult where
  tool_call_id : String
  function_name : String
  content : String
  is_error : Bool := false
deriving DecidableEq

/-- `ToolCall` record as the spec describes it (used by the spec-modelled
engine loop below). -/
structure ToolCall where
  id : String
  function_name : String
  function_args : String
deriving DecidableEq

namespace NoTool

/-- Source: `def get_tools(self): return []`. -/
def get_tools : List ToolResult := []

/-- Source (`tools.py` lines 27-28): the body is `pass`, so the call returns
`None` for every tool name and argument set — it produces no `ToolResult`
whatsoever, error or otherwise, and it cannot raise. -/
def execute_tool (tool_name : String) (kwargs : List (String × String)) :
    Option ToolResult :=
  none

end NoTool

namespace NoActionHandler

/-- Source (`action_handlers.py` lines 27-28): identical `pass` body. -/
def execute_tool (tool_name : String) (kwargs : List (String × String)) :
    Option ToolResult :=
  none

end NoActionHandler

/-! ## Heap view of the in-memory store

`conversation.copy(deep=True)` in `InMemoryPersistenceManager.save_conversation`
is only observable when Python object identity is modelled, so this section
refines the store with an explicit heap: `Conversation` objects live at
numbered addresses, callers hold references, `self._store` maps conversation
ids to references, and the deep copy performed by `save_conversation` allocates
a fresh address holding a value snapshot of the argument object.  Caller-side
mutations (`conversation.messages.append(...)`, editing a message's content)
update the heap in place through the caller's reference. -/

structure RefStore where
  heap : List (Nat × Conversation)
  store : List (String × Nat)
  nextAddr : Nat
deriving DecidableEq

namespace RefStore

/-- Dereference a conversation object. -/
def heapGet (s : RefStore) (r : Nat) : Option Conversation :=
  dictGet s.heap r

/-- Source: `self._store[conversation.id] = conversation.copy(deep=True)` —
a fresh object (address `s.nextAddr`) is allocated holding a copy of the
caller's object, and the dictionary entry is pointed at the copy. -/
def save_conversation_ref (s : RefStore) (user_id : String) (r : Nat) : RefStore :=
  match dictGet s.heap r with
  | some c =>
    { heap := (s.nextAddr, c) :: s.heap
      store := dictSet s.store c.id s.nextAddr
      nextAddr := s.nextAddr + 1 }
  | none => s

/-- Source: `return self._store.get(convo_id)`, dereferenced for observation. -/
def load_conversation_ref (s : RefStore) (user_id convo_id : String) : Option Conversation :=
  (dictGet s.store convo_id).bind (fun r => dictGet s.heap r)

/-- Caller-side `conversation.messages.append(m)` through reference `r`. -/
def appendMessageRef (s : RefStore) (r : Nat) (m : ChatMessage) : RefStore :=
  match dictGet s.heap r with
  | some c => { s with heap := dictSet s.heap r { c with messages := c.messages ++ [m] } }
  | none => s

/-- Caller-side `conversation.messages[i].content = txt` through reference `r`. -/
def setMessageContentRef (s : RefStore) (r : Nat) (i : Nat) (txt : String) : RefStore :=
  match dictGet s.heap r with
  | some c =>
    let edited : Conversation :=
      { c with messages := c.messages.set i ⟨(c.messages.getD i ⟨.user, ""⟩).role, txt⟩ }
    { s with heap := dictSet s.heap r edited }
  | none => s

/-- Addresses stored in the heap are below the allocator's next address. -/
def WF (s : RefStore) : Prop :=
  ∀ a ∈ dictKeys s.heap, a < s.nextAddr

end RefStore

/-! ## The LLM pillar interface consumed by the callbacks

`callbacks.send_message` and `Chatnificent.handle_interaction` consume the LLM
through `generate_response` / `extract_content`; these may raise
provider-specific errors.  `ρ` is the provider's native response type. -/

structure LLM (ρ : Type) where
  generate_response : List ChatMessage → Except String ρ
  extract_content : ρ → Except String String

/-- The default `SingleUserAuthManager.get_current_user_id` (auth_managers.py):
it ignores its arguments and returns the configured user id. -/
def singleUserAuth (user_id : String) : String → String := fun _ => "" ++ user_id

/-- `DefaultMessageFormatter.format_messages` / the layout builder's message
rendering: each message becomes one styled component whose text is the
message's content.  Rendering to components is outside the spec's scope, so the
render-ready list is embedded by the messages themselves (`if not messages:
return []` followed by a per-message map is the identity on this view). -/
def format_messages (messages : List ChatMessage) : List ChatMessage :=
  match messages with
  | [] => []
  | _ => messages

open InMemoryPersistenceManager in
/-- Conversation-list construction shared by `handle_interaction`'s two
branches (`__init__.py` lines 202-222 and 234-254): for each listed id, load
the conversation, skip it unless it exists and has messages and a first
user-role message, and title it by the first user message's content cut at
`cut` characters with an ellipsis when longer. -/
def buildConvoList (st : PMStore) (user_id : String) (cut : Nat) :
    List (String × String) :=
  (list_conversations st user_id).filterMap (fun cid =>
    match load_conversation st user_id cid with
    | none => none
    | some conv =>
      if conv.messages = [] then none
      else
        match conv.messages.find? (fun m => m.role = .user) with
        | none => none
        | some fm =>
          some (cid, pyTake fm.content cut ++ (if cut < pyLen fm.content then "..." else "")))

/-! ## The send_message callback (callbacks.py lines 19-81)

Pillars: `auth` is `app.auth.get_current_user_id` (total — the stock
`SingleUserAuthManager` cannot raise), the store is the in-memory
`InMemoryPersistenceManager` state, and `llm` is the LLM gateway whose two
operations may raise.  `app.store` has no `save_raw_api_response` attribute in
the source tree, so the `hasattr` probe at lines 50-55 takes the false branch
and is not represented.  `build_messages` renders via `format_messages`.

The callback returns a Dash triple `(messages_container, input value, submit
disabled)`; `no_update` for all three is `SendResult.noUpdate`. -/

inductive SendResult where
  | noUpdate
  | update (messages : List ChatMessage) (inputValue : String) (submitDisabled : Bool)
deriving DecidableEq

open InMemoryPersistenceManager in
/-- Conversation-id resolution of `send_message` (callbacks.py lines 25-30):
take the last path segment when the path has at least two segments and the
last one is non-empty and not `"NEW"`, else ask the store for a fresh id. -/
def resolveConvoId (st : PMStore) (user_id pathname : String) : String :=
  let path_parts := pySplitSlash (pyStripSlash pathname)
  if 2 ≤ path_parts.length ∧ path_parts.getLastD "" ≠ "" ∧ path_parts.getLastD "" ≠ "NEW"
  then path_parts.getLastD ""
  else (get_next_conversation_id st user_id).1

open InMemoryPersistenceManager in
/-- Lines 32-37 of `send_message`: load the conversation (or construct an empty
one with the resolved id) and append the user message, whose content is
`user_input.strip()`. -/
def sendUserConversation (st : PMStore) (user_id convo_id user_input : String) :
    Conversation :=
  let conversation := (load_conversation st user_id convo_id).getD (⟨convo_id, [], []⟩ : Conversation)
  { conversation with messages := conversation.messages ++ [⟨.user, pyStrip user_input⟩] }

open InMemoryPersistenceManager in
/-- The `except` handler of `send_message` (lines 68-79), in the case where the
`conversation` local is bound: append a synthetic assistant message embedding
the error's description, save the conversation, and return the rendered
messages with a cleared input box. -/
def sendErrorResult (st : PMStore) (user_id : String) (conversation : Conversation)
    (e : String) : SendResult × PMStore :=
  let error_message := "I encountered an error: " ++ e ++ ". Please try again."
  let conv := { conversation with messages := conversation.messages ++ [⟨.assistant, error_message⟩] }
  let st' := save_conversation st user_id conv
  (.update (format_messages conv.messages) "" false, st')

open InMemoryPersistenceManager in
/-- `send_message` (callbacks.py lines 19-81).  The guard returns `no_update`
for a missing click or empty/whitespace-only input.  Exceptions can arise at
`generate_response` and `extract_content` (the store and auth pillars bound
here are total); both sites lie after the `conversation` local is bound, so the
`except Exception` handler always takes its conversation-saving branch.  The
function is total: every exception from the `try` body is converted into a
result. -/
def send_message {ρ : Type} (auth : String → String) (llm : LLM ρ) (st : PMStore)
    (n_clicks : Nat) (user_input pathname : String) : SendResult × PMStore :=
  if n_clicks = 0 ∨ user_input = "" ∨ pyStrip user_input = "" then
    (.noUpdate, st)
  else
    let user_id := auth pathname
    let convo_id := resolveConvoId st user_id pathname
    let conversation := sendUserConversation st user_id convo_id user_input
    match llm.generate_response conversation.messages with
    | .error e => sendErrorResult st user_id conversation e
    | .ok raw_response =>
      match llm.extract_content raw_response with
      | .error e => sendErrorResult st user_id conversation e
      | .ok ai_content =>
        let conversation := { conversation with messages := conversation.messages ++ [⟨.assistant, ai_content⟩] }
        let st' := save_conversation st user_id conversation
        (.update (format_messages conversation.messages) "" false, st')

open InMemoryPersistenceManager in
/-- `Chatnificent.handle_interaction` (`__init__.py` lines 156-256).  The
callback has no `try`/`except` around the submission flow, so an exception
raised by the LLM pillar propagates to the caller — hence the `Except` result.
The submission branch is taken when the send button triggered with a non-zero
click count and a *truthy* (non-empty, not necessarily non-blank) input; the
user message carries `user_input_value` verbatim (no strip).  Every other
trigger falls through to the page-load branch, which loads the conversation
and rebuilds the view.  The result triple is `(chat area children, input
value, conversation list)` next to the possibly-updated store. -/
def handle_interaction {ρ : Type} (auth : String → String) (llm : LLM ρ)
    (st : PMStore) (triggered_id : String) (n_clicks : Nat)
    (pathname user_input_value : String) :
    Except String ((List ChatMessage × String × List (String × String)) × PMStore) :=
  let user_id := auth pathname
  -- `pathname.strip("/").split("/")[-1]`; `split` never returns an empty list,
  -- so the `except IndexError` fallback at line 166-167 is unreachable.
  let convo_id := (pySplitSlash (pyStripSlash pathname)).getLastD ""
  if triggered_id = "chat_send_button" ∧ n_clicks ≠ 0 ∧ user_input_value ≠ "" then
    let conversation := (load_conversation st user_id convo_id).getD (⟨convo_id, [], []⟩ : Conversation)
    let conversation : Conversation :=
      { conversation with messages := conversation.messages ++ [⟨.user, user_input_value⟩] }
    match llm.generate_response conversation.messages with
    | .error e => .error e
    | .ok raw =>
      match llm.extract_content raw with
      | .error e => .error e
      | .ok assistant_response_content =>
        let conversation : Conversation :=
          { conversation with messages := conversation.messages ++ [⟨.assistant, assistant_response_content⟩] }
        let st' := save_conversation st user_id conversation
        .ok ((format_messages conversation.messages, "", buildConvoList st' user_id 50), st')
  else
    let conversation := (load_conversation st user_id convo_id).getD (⟨convo_id, [], []⟩ : Conversation)
    .ok ((format_messages conversation.messages, "", buildConvoList st user_id 40), st)

/-! ## The Conversation Engine's agentic loop

Modelled from the spec: the Conversation Engine (`handle_message` step 6,
spec section 4.1) is code of this repository that is not under `src/` — only
its integration tests (`tests/integration/test_engine_llm.py`) and callers
reference it.  Per the spec: the loop, bounded by a fixed maximum turn count,
serializes the conversation and calls `generate_response`; the Gateway then
parses tool calls from the raw response.  A non-empty list of tool calls
executes each call, appends the resulting tool messages and loops; an **empty
list or null** result is the finalization signal: extract textual content via
the Gateway, append one assistant message, exit the loop.  Reaching the bound
force-finalizes with the last response's extracted content. -/

/-- Modelled from the spec: the LLM Gateway contract consumed by the engine
loop (spec section 4.2) together with the Tool Executor (section 4.3), with
the provider's successive native responses given as a stream indexed by the
number of `generate_response` calls already made, so call counts are
observable. -/
structure Gateway (ρ : Type) where
  responses : Nat → ρ
  parse_tool_calls : ρ → Option (List ToolCall)
  extract_content : ρ → String
  execute_tool_call : ToolCall → ToolResult

/-- Modelled from the spec: the fixed agentic-turn bound ("a fixed upper
bound, e.g. 5, to guarantee termination"). -/
def MAX_AGENTIC_TURNS : Nat := 5

/-- Modelled from the spec: a `ToolResult` fed back into the conversation as a
tool-role message. -/
def toolResultMessage (tr : ToolResult) : ChatMessage :=
  ⟨.tool, tr.content⟩

/-- Modelled from the spec: the agentic loop.  `i` is the number of model
calls already made, `fuel` the remaining turns out of `MAX_AGENTIC_TURNS`.
Returns the final message list together with the number of `generate_response`
calls and the number of `extract_content` calls the run performed. -/
def agenticLoop {ρ : Type} (gw : Gateway ρ) :
    Nat → Nat → List ChatMessage → List ChatMessage × Nat × Nat
  | _, 0, msgs => (msgs, 0, 0)
  | i, fuel + 1, msgs =>
    let raw := gw.responses i
    match gw.parse_tool_calls raw with
    | some (tc :: tcs) =>
      if fuel = 0 then
        (msgs ++ [⟨.assistant, gw.extract_content raw⟩], 1, 1)
      else
        let toolMsgs := (tc :: tcs).map (fun t => toolResultMessage (gw.execute_tool_call t))
        let r := agenticLoop gw (i + 1) fuel (msgs ++ toolMsgs)
        (r.1, r.2.1 + 1, r.2.2)
    | some [] => (msgs ++ [⟨.assistant, gw.extract_content raw⟩], 1, 1)
    | none => (msgs ++ [⟨.assistant, gw.extract_content raw⟩], 1, 1)

/-- Modelled from the spec: one engine turn's loop phase, entered with the
conversation as it stands after the user message is appended. -/
def runAgenticLoop {ρ : Type} (gw : Gateway ρ) (msgs : List ChatMessage) :
    List ChatMessage × Nat × Nat :=
  agenticLoop gw 0 MAX_AGENTIC_TURNS msgs

/-! ## Layout validation (__init__.py, Chatnificent._validate_layout)

A Dash component has an optional `id` (a string or a dict-style pattern id)
and an optional `children` attribute holding `None`, a single component, or a
list whose entries may be `None`.  `collect_ids` walks the tree gathering the
*string* ids of components whose id is truthy (a non-empty string);
`_validate_layout` raises `ValueError` naming the missing required ids when
any of the eight is absent. -/

inductive CompId where
  | str (s : String)
  | pattern (entries : List (String × String))
deriving DecidableEq

mutual
inductive DashComp where
  | mk (id : Option CompId) (children : DashChildrenAttr)
deriving DecidableEq
/-- The `children` attribute's value: `noneVal` covers both an absent
attribute and `children = None` (the walk treats the two identically), the
other constructors a single child component or a list of children whose
entries may be `None`. -/
inductive DashChildrenAttr where
  | noneVal
  | single (c : DashComp)
  | many (cs : DashCompList)
deriving DecidableEq
inductive DashCompList where
  | nil
  | consNone (tl : DashCompList)
  | cons (hd : DashComp) (tl : DashCompList)
deriving DecidableEq
end

mutual
/-- The recursive `collect_ids` of `_validate_layout` (`__init__.py` lines
120-135): record `component.id` when present, truthy and a string (a
dict-style pattern id is skipped), then recurse into `children`, skipping
`None` entries of a child list. -/
def collectIds : DashComp → List String
  | .mk id children =>
    (match id with
     | some (.str s) => if s = "" then [] else [s]
     | _ => []) ++ collectIdsChildren children

def collectIdsChildren : DashChildrenAttr → List String
  | .noneVal => []
  | .single c => collectIds c
  | .many cs => collectIdsList cs

def collectIdsList : DashCompList → List String
  | .nil => []
  | .consNone rest => collectIdsList rest
  | .cons c rest => collectIds c ++ collectIdsList rest
end

/-- The `required_ids` set of `_validate_layout` (`__init__.py` lines
107-116). -/
def requiredIds : List String :=
  ["url_location", "chat_area_main", "user_input_textarea", "convo_list_div",
   "chat_send_button", "new_chat_button", "sidebar_offcanvas",
   "sidebar_toggle_button"]

/-- The `missing_ids = required_ids - found_ids` set difference (as a list in
the required-ids order; the source sorts it only for the exception's display
string). -/
def missingIds (layout : DashComp) : List String :=
  requiredIds.filter (fun r => ¬ r ∈ collectIds layout)

/-- `_validate_layout` (`__init__.py` lines 105-143): `some ms` is the raised
`ValueError` naming the missing ids `ms`; `none` is a successful
validation. -/
def validate_layout (layout : DashComp) : Option (List String) :=
  match missingIds layout with
  | [] => none
  | ms => some ms

/-! ## Concrete pillar instances used for witnesses and counterexamples -/

/-- An LLM gateway whose `generate_response` raises a provider error. -/
def llmFail : LLM String :=
  ⟨fun _ => Except.error "boom", fun _ => Except.error "boom"⟩

/-- An echo LLM gateway: the native response is the last message's content and
extraction succeeds with it (the shape of the repo's `Echo` test provider). -/
def llmEcho : LLM String :=
  ⟨fun msgs => Except.ok ((msgs.getLastD ⟨.user, ""⟩).content), fun s => Except.ok s⟩

/-- An LLM gateway that raises at `extract_content` rather than at
`generate_response`. -/
def llmExtractFail : LLM String :=
  ⟨fun msgs => Except.ok ((msgs.getLastD ⟨.user, ""⟩).content),
   fun _ => Except.error "no content"⟩

/-- A gateway whose very first response carries no tool calls (empty list). -/
def gwEmptyCalls : Gateway String :=
  ⟨fun _ => "resp", fun _ => some [], fun r => "final " ++ r,
   fun tc => ⟨tc.id, tc.function_name, "", true⟩⟩

/-- A gateway whose very first response reports null (None) tool calls. -/
def gwNullCalls : Gateway String :=
  ⟨fun _ => "resp", fun _ => none, fun r => "final " ++ r,
   fun tc => ⟨tc.id, tc.function_name, "", true⟩⟩

/-- A layout containing all eight required component ids. -/
def goodLayout : DashComp :=
  .mk none (.many
    (.cons (.mk (some (.str "url_location")) .noneVal)
    (.cons (.mk (some (.str "chat_area_main")) .noneVal)
    (.consNone
    (.cons (.mk (some (.str "user_input_textarea")) .noneVal)
    (.cons (.mk (some (.str "convo_list_div"))
        (.single (.mk (some (.str "chat_send_button")) .noneVal)))
    (.cons (.mk (some (.str "new_chat_button")) .noneVal)
    (.cons (.mk (some (.str "sidebar_offcanvas")) .noneVal)
    (.cons (.mk (some (.str "sidebar_toggle_button")) .noneVal)
    .nil)))))))))

/-- A concrete two-conversation store in the canonical allocation state
(ids "1" and "2"). -/
def canonicalStore2 : InMemoryPersistenceManager.PMStore :=
  [("1", ⟨"1", [⟨.user, "a"⟩], []⟩), ("2", ⟨"2", [⟨.user, "b"⟩], []⟩)]

/-- A concrete heap-view store: one conversation object at address 0, next
address 1. -/
def refStore0 : RefStore :=
  ⟨[(0, ⟨"1", [⟨.user, "hello"⟩], []⟩)], [], 1⟩

/-! # Supporting lemmas -/

theorem dictGet_dictSet_self {κ α : Type} [DecidableEq κ]
    (d : List (κ × α)) (k : κ) (v : α) : dictGet (dictSet d k v) k = some v := by
  induction d with
  | nil => simp [dictGet, dictSet]
  | cons hd tl ih =>
    obtain ⟨k', v'⟩ := hd
    by_cases h : k' = k
    · simp [dictSet, dictGet, h]
    · simp [dictSet, dictGet, h, ih]

theorem mem_dictKeys_dictSet_self {κ α : Type} [DecidableEq κ]
    (d : List (κ × α)) (k : κ) (v : α) : k ∈ dictKeys (dictSet d k v) := by
  induction d with
  | nil => simp [dictSet, dictKeys]
  | cons hd tl ih =>
    obtain ⟨k', v'⟩ := hd
    by_cases h : k' = k
    · simp [dictSet, dictKeys, h]
    · simp only [dictSet, if_neg h, dictKeys, List.map_cons]
      exact List.mem_cons_of_mem _ ih

theorem dictGet_some_mem_keys {κ α : Type} [DecidableEq κ]
    {d : List (κ × α)} {k : κ} {v : α} (h : dictGet d k = some v) :
    k ∈ dictKeys d := by
  induction d with
  | nil => simp [dictGet] at h
  | cons hd tl ih =>
    obtain ⟨k', v'⟩ := hd
    by_cases hk : k' = k
    · subst hk
      exact List.mem_cons_self _ _
    · simp only [dictGet, if_neg hk] at h
      exact List.mem_cons_of_mem _ (ih h)


theorem pyStrAux_eq_digits :
    ∀ fuel n, n ≤ fuel → pyStrAux fuel n = (Nat.digits 10 n).map digitChar := by
  intro fuel
  induction fuel with
  | zero =>
    intro n hn
    interval_cases n
    simp [pyStrAux]
  | succ fuel ih =>
    intro n hn
    match n with
    | 0 => simp [pyStrAux]
    | m + 1 =>
      have hdiv : (m + 1) / 10 ≤ fuel := by
        have h1 : (m + 1) / 10 < m + 1 := Nat.div_lt_self (Nat.succ_pos m) (by norm_num)
        omega
      rw [pyStrAux, ih _ hdiv, Nat.digits_def' (by norm_num : (1:ℕ) < 10) (Nat.succ_pos m)]
      simp

theorem digitChar_inj_lt : ∀ d < 10, ∀ e < 10, digitChar d = digitChar e → d = e := by
  decide

theorem map_digitChar_inj :
    ∀ l₁ l₂ : List Nat, (∀ d ∈ l₁, d < 10) → (∀ d ∈ l₂, d < 10) →
      l₁.map digitChar = l₂.map digitChar → l₁ = l₂ := by
  intro l₁
  induction l₁ with
  | nil =>
    intro l₂ _ _ h
    cases l₂ with
    | nil => rfl
    | cons _ _ => simp at h
  | cons d₁ t₁ ih =>
    intro l₂ h₁ h₂ h
    cases l₂ with
    | nil => simp at h
    | cons d₂ t₂ =>
      simp only [List.map_cons, List.cons.injEq] at h
      have hd : d₁ = d₂ :=
        digitChar_inj_lt d₁ (h₁ d₁ (List.mem_cons_self _ _)) d₂
          (h₂ d₂ (List.mem_cons_self _ _)) h.1
      have ht : t₁ = t₂ :=
        ih t₂ (fun d hd' => h₁ d (List.mem_cons_of_mem _ hd'))
          (fun d hd' => h₂ d (List.mem_cons_of_mem _ hd')) h.2
      rw [hd, ht]

theorem pyStr_data (n : Nat) (hn : n ≠ 0) :
    (pyStr n).data = ((Nat.digits 10 n).map digitChar).reverse := by
  rw [pyStr, if_neg hn, pyStrAux_eq_digits n n le_rfl]

theorem pyStr_injective : Function.Injective pyStr := by
  intro m n h
  by_cases hm : m = 0
  · by_cases hn : n = 0
    · rw [hm, hn]
    · exfalso
      have hdata : (pyStr m).data = (pyStr n).data := by rw [h]
      rw [hm, pyStr_data n hn] at hdata
      have h0 : ['0'] = ((Nat.digits 10 n).map digitChar).reverse := hdata
      have hlist : (Nat.digits 10 n).map digitChar = ['0'] := by
        have := congrArg List.reverse h0
        simpa using this.symm
      match hd : Nat.digits 10 n with
      | [] => rw [hd] at hlist; simp at hlist
      | d :: rest =>
        rw [hd] at hlist
        simp only [List.map_cons, List.cons.injEq] at hlist
        obtain ⟨hchar, hrest⟩ := hlist
        have hrest' : rest = [] := by
          cases rest with
          | nil => rfl
          | cons _ _ => simp at hrest
        have hdlt : d < 10 :=
          Nat.digits_lt_base (by norm_num) (hd ▸ List.mem_cons_self d rest)
        have hd0 : d = 0 := digitChar_inj_lt d hdlt 0 (by norm_num) hchar
        have : n = 0 := by
          have := Nat.ofDigits_digits 10 n
          rw [hd, hrest', hd0] at this
          simpa [Nat.ofDigits] using this.symm
        exact hn this
  · by_cases hn : n = 0
    · exfalso
      have hdata : (pyStr n).data = (pyStr m).data := by rw [h]
      rw [hn, pyStr_data m hm] at hdata
      have h0 : ['0'] = ((Nat.digits 10 m).map digitChar).reverse := hdata
      have hlist : (Nat.digits 10 m).map digitChar = ['0'] := by
        have := congrArg List.reverse h0
        simpa using this.symm
      match hd : Nat.digits 10 m with
      | [] => rw [hd] at hlist; simp at hlist
      | d :: rest =>
        rw [hd] at hlist
        simp only [List.map_cons, List.cons.injEq] at hlist
        obtain ⟨hchar, hrest⟩ := hlist
        have hrest' : rest = [] := by
          cases rest with
          | nil => rfl
          | cons _ _ => simp at hrest
        have hdlt : d < 10 :=
          Nat.digits_lt_base (by norm_num) (hd ▸ List.mem_cons_self d rest)
        have hd0 : d = 0 := digitChar_inj_lt d hdlt 0 (by norm_num) hchar
        have : m = 0 := by
          have := Nat.ofDigits_digits 10 m
          rw [hd, hrest', hd0] at this
          simpa [Nat.ofDigits] using this.symm
        exact hm this
    · have hdata : (pyStr m).data = (pyStr n).data := by rw [h]
      rw [pyStr_data m hm, pyStr_data n hn] at hdata
      have hmap : (Nat.digits 10 m).map digitChar = (Nat.digits 10 n).map digitChar :=
        List.reverse_injective hdata
      have hdig : Nat.digits 10 m = Nat.digits 10 n :=
        map_digitChar_inj _ _ (fun d hd => Nat.digits_lt_base (by norm_num) hd)
          (fun d hd => Nat.digits_lt_base (by norm_num) hd) hmap
      exact Nat.digits_inj_iff.mp hdig

theorem dictGet_cons_dictSet_ne {κ α : Type} [DecidableEq κ]
    (k0 k : κ) (v0 v : α) (d : List (κ × α)) (h : ¬ k0 = k) :
    dictGet (dictSet ((k0, v0) :: d) k v) k0 = some v0 := by
  simp [dictSet, dictGet, h, Ne.symm, fun hk : k = k0 => h hk.symm]

theorem format_messages_append_singleton (l : List ChatMessage) (x : ChatMessage) :
    format_messages (l ++ [x]) = l ++ [x] := by
  cases l <;> rfl

theorem validate_layout_eq_none_iff (layout : DashComp) :
    validate_layout layout = none ↔ missingIds layout = [] := by
  unfold validate_layout
  cases h : missingIds layout with
  | nil => simp
  | cons a t => simp

theorem validate_layout_eq_some_iff (layout : DashComp) (ms : List String) :
    validate_layout layout = some ms ↔
      ms = missingIds layout ∧ missingIds layout ≠ [] := by
  unfold validate_layout
  cases h : missingIds layout with
  | nil => simp
  | cons a t =>
    simp only [Option.some.injEq, ne_eq, reduceCtorEq, not_false_eq_true, and_true]
    exact ⟨fun h' => h'.symm, fun h' => h'.symm⟩

theorem mem_missingIds_iff (layout : DashComp) (r : String) :
    r ∈ missingIds layout ↔ r ∈ requiredIds ∧ r ∉ collectIds layout := by
  simp [missingIds, List.mem_filter]

theorem agenticLoop_finalize {ρ : Type} (gw : Gateway ρ) (i fuel : Nat)
    (msgs : List ChatMessage)
    (h : gw.parse_tool_calls (gw.responses i) = some [] ∨
         gw.parse_tool_calls (gw.responses i) = none) :
    agenticLoop gw i (fuel + 1) msgs =
      (msgs ++ [⟨.assistant, gw.extract_content (gw.responses i)⟩], 1, 1) := by
  cases h with
  | inl h => simp [agenticLoop, h]
  | inr h => simp [agenticLoop, h]

/-! # Claim theorems -/

/-- C8: evaluation of the source's `ChatMessage` construction-time validation
(models.py).  A role outside the closed enumeration is rejected, as the claim
states, but a `None` content is *also* rejected — `content : str` is a
required non-Optional field — contradicting the claim's (and the test
suite's) nullable-content behaviour.  The first conjunct evaluates the code at
the claim's failing input `ChatMessage(role="user", content=None)`. -/
theorem chatMessage_construction_validation :
    chatMessageNew "user" none = none ∧
    chatMessageNew "banana" (some "hi") = none ∧
    chatMessageNew "tool" (some "ok") = some ⟨Role.tool, "ok"⟩ :=
  ⟨rfl, rfl, rfl⟩

/-- C9: the source's default no-tools implementations (`NoTool.execute_tool`
and `NoActionHandler.execute_tool`, both with a `pass` body) return Python
`None` for every tool name and argument set — they never produce any
`ToolResult`, in particular not the error `ToolResult` naming an inactive
handler that the claim (and the repository's own test suite) requires. -/
theorem noTool_execute_returns_none (tool_name : String)
    (kwargs : List (String × String)) :
    NoTool.execute_tool tool_name kwargs = none ∧
    NoActionHandler.execute_tool tool_name kwargs = none :=
  ⟨rfl, rfl⟩

/-- C5 counterexample: a conversation saved through the in-memory store by
user "alice" *is* returned by a load for user "bob" with the same conversation
id, and its id *does* appear in bob's listing — refuting, at this concrete
input, the claim that store operations are namespaced by `user_id`. -/
theorem store_cross_user_leak_concrete :
    InMemoryPersistenceManager.load_conversation
        (InMemoryPersistenceManager.save_conversation [] "alice"
          ⟨"1", [⟨.user, "hi"⟩], []⟩) "bob" "1" =
      some ⟨"1", [⟨.user, "hi"⟩], []⟩ ∧
    "1" ∈ InMemoryPersistenceManager.list_conversations
        (InMemoryPersistenceManager.save_conversation [] "alice"
          ⟨"1", [⟨.user, "hi"⟩], []⟩) "bob" := by
  exact ⟨rfl, by decide⟩

/-- C5 amended: the in-memory store is shared across users — every operation
ignores `user_id`: a conversation saved by any user A is returned by a load
from any user B under the same id, its id appears in B's listing, and the
listing is the same whichever user asks. -/
theorem store_shared_across_users
    (st : InMemoryPersistenceManager.PMStore) (uA uB : String) (c : Conversation) :
    InMemoryPersistenceManager.load_conversation
        (InMemoryPersistenceManager.save_conversation st uA c) uB c.id = some c ∧
    c.id ∈ InMemoryPersistenceManager.list_conversations
        (InMemoryPersistenceManager.save_conversation st uA c) uB ∧
    InMemoryPersistenceManager.list_conversations st uA =
      InMemoryPersistenceManager.list_conversations st uB :=
  ⟨dictGet_dictSet_self st c.id c, mem_dictKeys_dictSet_self st c.id c, rfl⟩

/-- C7 counterexample: (a) for `InMemoryPersistenceManager`, in the concrete
store whose single stored conversation has id "2", the allocator returns "2" —
an id already stored for that user; (b) for `InMemoryConversationManager`, a
speculative call from the empty state changes the state: a later
`list_conversations` returns the placeholder entry instead of the empty list
it would have returned had `get_next_conversation_id` never been called. -/
theorem get_next_id_collision_and_mutation :
    (InMemoryPersistenceManager.get_next_conversation_id
        [("2", ⟨"2", [⟨.user, "b"⟩], []⟩)] "u").1 ∈
      InMemoryPersistenceManager.list_conversations
        [("2", (⟨"2", [⟨.user, "b"⟩], []⟩ : Conversation))] "u" ∧
    InMemoryConversationManager.list_conversations
        (InMemoryConversationManager.get_next_conversation_id [] "u").2 "u" ≠
      InMemoryConversationManager.list_conversations [] "u" := by
  decide

/-- C7 amended: for `InMemoryPersistenceManager`, `get_next_conversation_id`
is free of side effects — the store comes back unchanged, so a later
`list_conversations` is as if the call never happened — and the returned id
`str(len(store) + 1)` is distinct from every stored id whenever the stored ids
are exactly `str(1) ... str(len(store))`, i.e. in every state the allocator's
own save-then-allocate discipline produces (in other states it can collide,
and `InMemoryConversationManager`'s allocator mutates its state, per the
counterexample). -/
theorem pm_get_next_id_pure_and_fresh_on_canonical
    (st : InMemoryPersistenceManager.PMStore) (u : String)
    (hcanon : dictKeys st = (List.range st.length).map (fun i => pyStr (i + 1))) :
    (InMemoryPersistenceManager.get_next_conversation_id st u).2 = st ∧
    InMemoryPersistenceManager.list_conversations
        (InMemoryPersistenceManager.get_next_conversation_id st u).2 u =
      InMemoryPersistenceManager.list_conversations st u ∧
    (InMemoryPersistenceManager.get_next_conversation_id st u).1 ∉
      InMemoryPersistenceManager.list_conversations st u := by
  refine ⟨rfl, rfl, ?_⟩
  intro hmem
  simp only [InMemoryPersistenceManager.get_next_conversation_id,
    InMemoryPersistenceManager.list_conversations] at hmem
  rw [hcanon] at hmem
  simp only [List.mem_map, List.mem_range] at hmem
  obtain ⟨i, hi, heq⟩ := hmem
  have := pyStr_injective heq
  omega

/-- C7 witness: the amended statement applied to the concrete canonical
two-conversation store — the allocator leaves it unchanged and returns "3",
which is not among the stored ids. -/
theorem pm_get_next_id_witness :
    (InMemoryPersistenceManager.get_next_conversation_id canonicalStore2 "u").2 =
        canonicalStore2 ∧
    InMemoryPersistenceManager.list_conversations
        (InMemoryPersistenceManager.get_next_conversation_id canonicalStore2 "u").2 "u" =
      InMemoryPersistenceManager.list_conversations canonicalStore2 "u" ∧
    (InMemoryPersistenceManager.get_next_conversation_id canonicalStore2 "u").1 ∉
      InMemoryPersistenceManager.list_conversations canonicalStore2 "u" :=
  pm_get_next_id_pure_and_fresh_on_canonical canonicalStore2 "u" (by decide)

/-- C4: an empty parsed-tool-calls list and a null (None) parsed-tool-calls
result are treated identically as the finalization signal of the engine's
agentic loop: in either case the run extracts textual content exactly once,
appends exactly one assistant message carrying it, and performs exactly one
model call in the turn (no further calls). -/
theorem engine_finalizes_on_empty_or_null_tool_calls {ρ : Type}
    (gw : Gateway ρ) (msgs : List ChatMessage)
    (h : gw.parse_tool_calls (gw.responses 0) = some [] ∨
         gw.parse_tool_calls (gw.responses 0) = none) :
    runAgenticLoop gw msgs =
      (msgs ++ [⟨.assistant, gw.extract_content (gw.responses 0)⟩], 1, 1) := by
  show agenticLoop gw 0 MAX_AGENTIC_TURNS msgs = _
  exact agenticLoop_finalize gw 0 4 msgs h

/-- C4 witness: two concrete gateways, identical except that one reports an
empty tool-call list and the other a null one, finalize to the same result:
one assistant message, one model call, one content extraction. -/
theorem engine_finalizes_witness :
    runAgenticLoop gwEmptyCalls [] = ([⟨Role.assistant, "final resp"⟩], 1, 1) ∧
    runAgenticLoop gwNullCalls [] = ([⟨Role.assistant, "final resp"⟩], 1, 1) :=
  ⟨engine_finalizes_on_empty_or_null_tool_calls gwEmptyCalls [] (Or.inl rfl),
   engine_finalizes_on_empty_or_null_tool_calls gwNullCalls [] (Or.inr rfl)⟩

/-- C10: `_validate_layout` raises a `ValueError` naming exactly the missing
required ids if and only if the layout tree lacks at least one of the eight
required component ids; equivalently, validation succeeds exactly when every
required id is collected from the layout tree. -/
theorem validate_layout_raises_iff_missing (layout : DashComp) :
    (validate_layout layout = none ↔ ∀ r ∈ requiredIds, r ∈ collectIds layout) ∧
    ∀ ms, validate_layout layout = some ms →
      ms ≠ [] ∧ ∀ r, r ∈ ms ↔ r ∈ requiredIds ∧ r ∉ collectIds layout := by
  constructor
  · rw [validate_layout_eq_none_iff]
    constructor
    · intro h r hr
      by_contra hc
      have hmem : r ∈ missingIds layout := (mem_missingIds_iff layout r).mpr ⟨hr, hc⟩
      rw [h] at hmem
      simp at hmem
    · intro h
      by_contra hne
      obtain ⟨r, hrmem⟩ := List.exists_mem_of_ne_nil _ hne
      have hr := (mem_missingIds_iff layout r).mp hrmem
      exact hr.2 (h r hr.1)
  · intro ms hms
    obtain ⟨hms', hne⟩ := (validate_layout_eq_some_iff layout ms).mp hms
    subst hms'
    exact ⟨hne, fun r => mem_missingIds_iff layout r⟩

/-- C10 witness: the validator accepts a concrete layout containing all eight
required ids. -/
theorem validate_layout_witness : validate_layout goodLayout = none :=
  (validate_layout_raises_iff_missing goodLayout).1.mpr (by decide)

/-- C6: after `save_conversation` the persisted snapshot is immune to
caller-side mutation — appending a message to the caller's conversation
object, then editing a message's content, leaves a later load returning the
messages exactly as they were at the moment of the save, even though the
caller's own object visibly changed (the in-memory backend deep-copies on
save). -/
theorem save_deep_copy_immune_to_mutation (s : RefStore) (uid uid' : String)
    (r : Nat) (c : Conversation) (m : ChatMessage) (i : Nat) (txt : String)
    (hwf : RefStore.WF s) (hr : RefStore.heapGet s r = some c) :
    RefStore.load_conversation_ref
        (RefStore.appendMessageRef (RefStore.save_conversation_ref s uid r) r m)
        uid' c.id = some c ∧
    RefStore.heapGet
        (RefStore.appendMessageRef (RefStore.save_conversation_ref s uid r) r m) r =
      some { c with messages := c.messages ++ [m] } ∧
    RefStore.load_conversation_ref
        (RefStore.setMessageContentRef
          (RefStore.appendMessageRef (RefStore.save_conversation_ref s uid r) r m)
          r i txt) uid' c.id = some c := by
  have hgetr : dictGet s.heap r = some c := hr
  have hlt : r < s.nextAddr := hwf r (dictGet_some_mem_keys hgetr)
  have hne : ¬ (s.nextAddr = r) := by omega
  have hsave : RefStore.save_conversation_ref s uid r =
      ⟨(s.nextAddr, c) :: s.heap, dictSet s.store c.id s.nextAddr, s.nextAddr + 1⟩ := by
    simp [RefStore.save_conversation_ref, hgetr]
  have happend : RefStore.appendMessageRef (RefStore.save_conversation_ref s uid r) r m =
      ⟨(s.nextAddr, c) :: dictSet s.heap r { c with messages := c.messages ++ [m] },
       dictSet s.store c.id s.nextAddr, s.nextAddr + 1⟩ := by
    rw [hsave]
    simp [RefStore.appendMessageRef, dictGet, dictSet, hne, hgetr]
  refine ⟨?_, ?_, ?_⟩
  · rw [happend]
    simp [RefStore.load_conversation_ref, dictGet_dictSet_self, dictGet]
  · rw [happend]
    simp [RefStore.heapGet, dictGet, hne, dictGet_dictSet_self]
  · rw [happend]
    have hget2 : dictGet ((s.nextAddr, c) ::
        dictSet s.heap r { c with messages := c.messages ++ [m] }) r =
        some { c with messages := c.messages ++ [m] } := by
      simp [dictGet, hne, dictGet_dictSet_self]
    simp only [RefStore.setMessageContentRef, RefStore.heapGet, hget2]
    simp [RefStore.load_conversation_ref, dictGet_dictSet_self, dictGet,
      dictGet_cons_dictSet_ne _ _ _ _ _ hne]

/-- C6 witness: the concrete one-object heap store — after a save and a
caller-side append, the load still returns the messages as saved. -/
theorem save_deep_copy_witness :
    RefStore.WF refStore0 ∧
    RefStore.load_conversation_ref
        (RefStore.appendMessageRef (RefStore.save_conversation_ref refStore0 "u" 0)
          0 ⟨.user, "extra"⟩) "v" "1" =
      some ⟨"1", [⟨.user, "hello"⟩], []⟩ :=
  ⟨by unfold RefStore.WF; decide,
   (save_deep_copy_immune_to_mutation refStore0 "u" "v" 0
      ⟨"1", [⟨.user, "hello"⟩], []⟩ ⟨.user, "extra"⟩ 0 "edited"
      (by unfold RefStore.WF; decide) rfl).1⟩

theorem send_message_guard_false {ρ : Type} (auth : String → String) (llm : LLM ρ)
    (st : InMemoryPersistenceManager.PMStore) (n_clicks : Nat)
    (user_input pathname : String) (hn : n_clicks ≠ 0) (hu : pyStrip user_input ≠ "") :
    ¬ (n_clicks = 0 ∨ user_input = "" ∨ pyStrip user_input = "") := by
  push_neg
  refine ⟨hn, ?_, hu⟩
  intro h0
  apply hu
  rw [h0]
  rfl

theorem send_message_error_eq {ρ : Type} (auth : String → String) (llm : LLM ρ)
    (st : InMemoryPersistenceManager.PMStore) (n_clicks : Nat)
    (user_input pathname e : String)
    (hn : n_clicks ≠ 0) (hu : pyStrip user_input ≠ "")
    (hfail :
      llm.generate_response
          (sendUserConversation st (auth pathname)
            (resolveConvoId st (auth pathname) pathname) user_input).messages =
        Except.error e ∨
      ∃ raw, llm.generate_response
          (sendUserConversation st (auth pathname)
            (resolveConvoId st (auth pathname) pathname) user_input).messages =
        Except.ok raw ∧ llm.extract_content raw = Except.error e) :
    send_message auth llm st n_clicks user_input pathname =
      sendErrorResult st (auth pathname)
        (sendUserConversation st (auth pathname)
          (resolveConvoId st (auth pathname) pathname) user_input) e := by
  have hguard := send_message_guard_false auth llm st n_clicks user_input pathname hn hu
  rcases hfail with hgen | ⟨raw, hgen, hext⟩
  · simp only [send_message, if_neg hguard, hgen]
  · simp only [send_message, if_neg hguard, hgen, hext]

/-- C1 amended: in `send_message`, any exception raised by the LLM gateway
after the user message is appended (at `generate_response` or at
`extract_content`) is caught inside the callback: the returned result is a
well-formed update whose message list ends with a synthetic assistant message
embedding the error's description, that error message is appended to the
already-constructed conversation, and the conversation is saved (a reload
returns it).  `handle_interaction` has no such handler: exceptions propagate
to the caller, per the counterexample. -/
theorem send_message_catches_llm_errors {ρ : Type} (auth : String → String)
    (llm : LLM ρ) (st : InMemoryPersistenceManager.PMStore) (n_clicks : Nat)
    (user_input pathname e : String)
    (hn : n_clicks ≠ 0) (hu : pyStrip user_input ≠ "")
    (hfail :
      llm.generate_response
          (sendUserConversation st (auth pathname)
            (resolveConvoId st (auth pathname) pathname) user_input).messages =
        Except.error e ∨
      ∃ raw, llm.generate_response
          (sendUserConversation st (auth pathname)
            (resolveConvoId st (auth pathname) pathname) user_input).messages =
        Except.ok raw ∧ llm.extract_content raw = Except.error e) :
    ∃ conv : Conversation,
      conv.messages.getLast? =
        some ⟨.assistant, "I encountered an error: " ++ e ++ ". Please try again."⟩ ∧
      send_message auth llm st n_clicks user_input pathname =
        (SendResult.update conv.messages "" false,
         InMemoryPersistenceManager.save_conversation st (auth pathname) conv) ∧
      InMemoryPersistenceManager.load_conversation
          (send_message auth llm st n_clicks user_input pathname).2
          (auth pathname) conv.id = some conv := by
  have heq := send_message_error_eq auth llm st n_clicks user_input pathname e hn hu hfail
  refine ⟨{ sendUserConversation st (auth pathname)
      (resolveConvoId st (auth pathname) pathname) user_input with
      messages := (sendUserConversation st (auth pathname)
        (resolveConvoId st (auth pathname) pathname) user_input).messages ++
        [⟨.assistant, "I encountered an error: " ++ e ++ ". Please try again."⟩] },
    ?_, ?_, ?_⟩
  · exact List.getLast?_concat _
  · rw [heq]
    simp only [sendErrorResult, format_messages_append_singleton]
  · rw [heq]
    exact dictGet_dictSet_self _ _ _

/-- C1 witness: the caught-error path at a concrete input — a gateway whose
`generate_response` raises "boom", one click, input "hi", path "/u/1". -/
theorem send_message_catches_witness :
    (1 : Nat) ≠ 0 ∧ pyStrip "hi" ≠ "" ∧
    ∃ conv : Conversation,
      conv.messages.getLast? =
        some ⟨.assistant, "I encountered an error: boom. Please try again."⟩ ∧
      send_message (singleUserAuth "u") llmFail [] 1 "hi" "/u/1" =
        (SendResult.update conv.messages "" false,
         InMemoryPersistenceManager.save_conversation [] (singleUserAuth "u" "/u/1") conv) ∧
      InMemoryPersistenceManager.load_conversation
          (send_message (singleUserAuth "u") llmFail [] 1 "hi" "/u/1").2
          (singleUserAuth "u" "/u/1") conv.id = some conv :=
  ⟨by decide, by decide,
   send_message_catches_llm_errors (singleUserAuth "u") llmFail [] 1 "hi" "/u/1" "boom"
     (by decide) (by decide) (Or.inl rfl)⟩

/-- C1 counterexample: `handle_interaction` has no `try`/`except` — an
exception raised by the LLM gateway during the submission flow propagates to
the caller instead of being converted into a well-formed result. -/
theorem handle_interaction_error_propagates :
    handle_interaction (singleUserAuth "u") llmFail [] "chat_send_button" 1 "/u/1" "hi" =
      Except.error "boom" := rfl

theorem send_message_success_eq {ρ : Type} (auth : String → String) (llm : LLM ρ)
    (st : InMemoryPersistenceManager.PMStore) (n_clicks : Nat)
    (user_input pathname : String) (raw : ρ) (content : String)
    (hn : n_clicks ≠ 0) (hu : pyStrip user_input ≠ "")
    (hgen : llm.generate_response
        (sendUserConversation st (auth pathname)
          (resolveConvoId st (auth pathname) pathname) user_input).messages =
      Except.ok raw)
    (hext : llm.extract_content raw = Except.ok content) :
    send_message auth llm st n_clicks user_input pathname =
      (SendResult.update
        ((sendUserConversation st (auth pathname)
            (resolveConvoId st (auth pathname) pathname) user_input).messages ++
          [⟨.assistant, content⟩]) "" false,
       InMemoryPersistenceManager.save_conversation st (auth pathname)
         { sendUserConversation st (auth pathname)
             (resolveConvoId st (auth pathname) pathname) user_input with
           messages := (sendUserConversation st (auth pathname)
             (resolveConvoId st (auth pathname) pathname) user_input).messages ++
             [⟨.assistant, content⟩] }) := by
  have hguard := send_message_guard_false auth llm st n_clicks user_input pathname hn hu
  simp only [send_message, if_neg hguard, hgen, hext, format_messages_append_singleton]

/-- C2 amended: for every successful no-tool-call turn of `send_message`, the
conversation gains exactly two messages over its pre-call persisted state —
first a user message carrying the submitted text trimmed of surrounding
whitespace (the code appends `user_input.strip()`, not the raw submission),
then an assistant message carrying the extracted content — the result's
input-box value is the empty string, and the grown conversation is saved. -/
theorem send_message_success_appends_two {ρ : Type} (auth : String → String)
    (llm : LLM ρ) (st : InMemoryPersistenceManager.PMStore) (n_clicks : Nat)
    (user_input pathname : String) (raw : ρ) (content : String)
    (hn : n_clicks ≠ 0) (hu : pyStrip user_input ≠ "")
    (hgen : llm.generate_response
        (sendUserConversation st (auth pathname)
          (resolveConvoId st (auth pathname) pathname) user_input).messages =
      Except.ok raw)
    (hext : llm.extract_content raw = Except.ok content) :
    send_message auth llm st n_clicks user_input pathname =
      (SendResult.update
        (((InMemoryPersistenceManager.load_conversation st (auth pathname)
              (resolveConvoId st (auth pathname) pathname)).getD
            (⟨resolveConvoId st (auth pathname) pathname, [], []⟩ : Conversation)).messages ++
          [⟨.user, pyStrip user_input⟩, ⟨.assistant, content⟩]) "" false,
       InMemoryPersistenceManager.save_conversation st (auth pathname)
         { (InMemoryPersistenceManager.load_conversation st (auth pathname)
              (resolveConvoId st (auth pathname) pathname)).getD
            (⟨resolveConvoId st (auth pathname) pathname, [], []⟩ : Conversation) with
           messages :=
             ((InMemoryPersistenceManager.load_conversation st (auth pathname)
                (resolveConvoId st (auth pathname) pathname)).getD
              (⟨resolveConvoId st (auth pathname) pathname, [], []⟩ : Conversation)).messages ++
             [⟨.user, pyStrip user_input⟩, ⟨.assistant, content⟩] }) := by
  rw [send_message_success_eq auth llm st n_clicks user_input pathname raw content
    hn hu hgen hext]
  simp [sendUserConversation, List.append_assoc]

/-- C2 witness: the success path at a concrete input — the echo gateway, one
click, input "hi", path "/u/1": exactly the user and assistant messages are
appended to the empty conversation and the input box is cleared. -/
theorem send_message_success_witness :
    (1 : Nat) ≠ 0 ∧ pyStrip "hi" ≠ "" ∧
    send_message (singleUserAuth "u") llmEcho [] 1 "hi" "/u/1" =
      (SendResult.update
        (((InMemoryPersistenceManager.load_conversation [] (singleUserAuth "u" "/u/1")
              (resolveConvoId [] (singleUserAuth "u" "/u/1") "/u/1")).getD
            (⟨resolveConvoId [] (singleUserAuth "u" "/u/1") "/u/1", [], []⟩ : Conversation)).messages ++
          [⟨.user, pyStrip "hi"⟩, ⟨.assistant, "hi"⟩]) "" false,
       InMemoryPersistenceManager.save_conversation [] (singleUserAuth "u" "/u/1")
         { (InMemoryPersistenceManager.load_conversation [] (singleUserAuth "u" "/u/1")
              (resolveConvoId [] (singleUserAuth "u" "/u/1") "/u/1")).getD
            (⟨resolveConvoId [] (singleUserAuth "u" "/u/1") "/u/1", [], []⟩ : Conversation) with
           messages :=
             ((InMemoryPersistenceManager.load_conversation [] (singleUserAuth "u" "/u/1")
                (resolveConvoId [] (singleUserAuth "u" "/u/1") "/u/1")).getD
              (⟨resolveConvoId [] (singleUserAuth "u" "/u/1") "/u/1", [], []⟩ : Conversation)).messages ++
             [⟨.user, pyStrip "hi"⟩, ⟨.assistant, "hi"⟩] }) :=
  ⟨by decide, by decide,
   send_message_success_appends_two (singleUserAuth "u") llmEcho [] 1 "hi" "/u/1" "hi" "hi"
     (by decide) (by decide) rfl rfl⟩

/-- C2 counterexample: the user message does not carry the submitted text
verbatim — for the submission " hi " (with surrounding whitespace) the
appended user message's content is the trimmed "hi", so the claim's "a message
with role user carrying the submitted text" fails at this input. -/
theorem send_message_strips_submitted_text :
    send_message (singleUserAuth "u") llmEcho [] 1 " hi " "/u/1" =
      (SendResult.update [⟨.user, "hi"⟩, ⟨.assistant, "hi"⟩] "" false,
       [("1", (⟨"1", [⟨.user, "hi"⟩, ⟨.assistant, "hi"⟩], []⟩ : Conversation))]) ∧
    (⟨.user, "hi"⟩ : ChatMessage) ≠ ⟨.user, " hi "⟩ :=
  ⟨rfl, by decide⟩

/-- C3 amended: for `send_message`, empty or whitespace-only input is a no-op
— the callback returns `no_update` for all three outputs and the store comes
back unchanged, whatever the LLM pillar is (so no model call and no save can
have influenced the result).  `handle_interaction` only skips submission for
*empty* (falsy) input, and even then loads conversations to render the view;
a whitespace-only input is submitted to the LLM in full, per the
counterexample. -/
theorem send_message_blank_input_is_noop {ρ : Type} (auth : String → String)
    (llm : LLM ρ) (st : InMemoryPersistenceManager.PMStore) (n_clicks : Nat)
    (user_input pathname : String) (hu : pyStrip user_input = "") :
    send_message auth llm st n_clicks user_input pathname = (SendResult.noUpdate, st) := by
  simp [send_message, hu]

/-- C3 witness: the no-op at the concrete whitespace-only input " ". -/
theorem send_message_blank_input_witness :
    pyStrip " " = "" ∧
    send_message (singleUserAuth "u") llmEcho [] 1 " " "/u/1" =
      (SendResult.noUpdate, []) :=
  ⟨by decide,
   send_message_blank_input_is_noop (singleUserAuth "u") llmEcho [] 1 " " "/u/1" (by decide)⟩

/-- C3 counterexample: `handle_interaction` given the whitespace-only input
" " is not a no-op — the submission branch runs in full: the blank user
message is sent to the LLM, an assistant reply is produced, and the
conversation is saved (the store changes from empty to one conversation). -/
theorem handle_interaction_whitespace_not_noop :
    handle_interaction (singleUserAuth "u") llmEcho [] "chat_send_button" 1 "/u/1" " " =
      Except.ok (([⟨.user, " "⟩, ⟨.assistant, " "⟩], "", [("1", " ")]),
        [("1", (⟨"1", [⟨.user, " "⟩, ⟨.assistant, " "⟩], []⟩ : Conversation))]) ∧
    ([("1", (⟨"1", [⟨.user, " "⟩, ⟨.assistant, " "⟩], []⟩ : Conversation))] :
        InMemoryPersistenceManager.PMStore) ≠ [] :=
  ⟨rfl, by decide⟩

end Chatnificent
